import Mathlib

/-!
Verification of the motion-prediction and detection-evaluation core of the
Mult-Object-Tracking-Challenge repository.

The Python sources embedded here are
src/detector/data_obj_detect.py (greedy IoU detection matcher and
PASCAL-VOC-style metric aggregation) and src/motion_prediction/kalman.py
(geometry codec, Kalman-filter wrappers, motion classifier, freezer).
Machine floats are modelled by exact rationals (for code whose claims involve
no square root) and by real numbers (for code using np.sqrt /
np.linalg.norm); numpy arrays become lists.
-/

/-- Axis-aligned bounding box in corner format (x1, y1, x2, y2), as used by
the detection matcher; coordinates are modelled as rationals. -/
structure Box where
  x1 : ℚ
  y1 : ℚ
  x2 : ℚ
  y2 : ℚ
deriving DecidableEq, Repr

/-- Intersection area of a ground-truth box and a detection box with the
legacy +1 pixel-inclusive convention: iw = max(ixmax - ixmin + 1, 0) and
likewise for ih, mirroring lines 375-381 of data_obj_detect.py. -/
def interArea (g d : Box) : ℚ :=
  let ixmin := max g.x1 d.x1
  let iymin := max g.y1 d.y1
  let ixmax := min g.x2 d.x2
  let iymax := min g.y2 d.y2
  let iw := max (ixmax - ixmin + 1) 0
  let ih := max (iymax - iymin + 1) 0
  iw * ih

/-- Pixel-inclusive box area (x2 - x1 + 1) * (y2 - y1 + 1), as in the union
computation of tp_and_fp_of_detection. -/
def areaP1 (b : Box) : ℚ := (b.x2 - b.x1 + 1) * (b.y2 - b.y1 + 1)

/-- Intersection over union with the +1 convention:
inters / (area(d) + area(g) - inters). -/
def iou (g d : Box) : ℚ :=
  interArea g d / (areaP1 d + areaP1 g - interArea g d)

/-- First index of the maximum of a list together with that maximum,
mirroring np.argmax (first occurrence wins) and np.max; none on the empty
list (the code guards with im_gt.size > 0). -/
def argmaxQ : List ℚ → Option (ℕ × ℚ)
  | [] => none
  | x :: xs =>
    match argmaxQ xs with
    | none => some (0, x)
    | some (j, m) => if m > x then some (j + 1, m) else some (0, x)

/-- One iteration of the detection loop of tp_and_fp_of_detection: given the
current claimed flags, a detection is matched against all ground-truth boxes;
if the best overlap exceeds the threshold and its (first-maximal) ground
truth is unclaimed the detection is a true positive and claims it, otherwise
it is a false positive.  Returns (new found flags, tp flag, fp flag). -/
def matchStep (gts : List Box) (ovthresh : ℚ) (found : List Bool) (d : Box) :
    List Bool × Bool × Bool :=
  match argmaxQ (gts.map (fun g => iou g d)) with
  | none => (found, false, true)
  | some (jmax, ovmax) =>
    if ovmax > ovthresh then
      if found.getD jmax true = false then
        (found.set jmax true, true, false)
      else
        (found, false, true)
    else
      (found, false, true)

/-- Recursion over the detections of tp_and_fp_of_detection, threading the
claimed flags; returns (final found flags, tp flags, fp flags), the boolean
image of the 0/1 float arrays of the code. -/
def tp_and_fp_go (gts : List Box) (ovthresh : ℚ) :
    List Bool → List Box → List Bool × List Bool × List Bool
  | found, [] => (found, [], [])
  | found, d :: ds =>
    let s := matchStep gts ovthresh found d
    let r := tp_and_fp_go gts ovthresh s.1 ds
    (r.1, s.2.1 :: r.2.1, s.2.2 :: r.2.2)

/-- Embedding of tp_and_fp_of_detection (data_obj_detect.py lines 368-402):
found starts as zeros(len(im_gt)); detections are processed in input order. -/
def tp_and_fp_of_detection (im_gt im_det : List Box) (ovthresh : ℚ) :
    List Bool × List Bool × List Bool :=
  tp_and_fp_go im_gt ovthresh (List.replicate im_gt.length false) im_det

/-- Claimed flags after processing the first k detections, used to phrase
the claiming invariant of the matcher. -/
def runFound (gts : List Box) (ovthresh : ℚ) (found : List Bool) :
    List Box → List Bool
  | [] => found
  | d :: ds => runFound gts ovthresh (matchStep gts ovthresh found d).1 ds

/-- Found flags of the matcher after the first k detections. -/
def foundAfter (gts : List Box) (ovthresh : ℚ) (dets : List Box) (k : ℕ) :
    List Bool :=
  runFound gts ovthresh (List.replicate gts.length false) (dets.take k)

/-- Detection i claims ground truth j when the j-th claimed flag flips from
unclaimed to claimed while processing detection i. -/
def claimsGt (gts : List Box) (ovthresh : ℚ) (dets : List Box) (i j : ℕ) :
    Prop :=
  (foundAfter gts ovthresh dets i).getD j true = false ∧
    (foundAfter gts ovthresh dets (i + 1)).getD j false = true

lemma getD_set_mono (l : List Bool) (m j : ℕ) (h : l.getD j false = true) :
    (l.set m true).getD j false = true := by
  induction l generalizing m j with
  | nil => simp at h
  | cons b bs ih =>
    cases m with
    | zero =>
      cases j with
      | zero => simp
      | succ j => simpa using h
    | succ m =>
      cases j with
      | zero => simpa using h
      | succ j => simpa using ih m j (by simpa using h)

lemma getD_true_of (l : List Bool) (j : ℕ) (h : l.getD j false = true) :
    l.getD j true = true := by
  induction l generalizing j with
  | nil => simp
  | cons b bs ih =>
    cases j with
    | zero => simpa using h
    | succ j => simpa using ih j (by simpa using h)

lemma matchStep_cases (gts : List Box) (th : ℚ) (found : List Bool) (d : Box) :
    matchStep gts th found d = (found, false, true) ∨
      ∃ j, found.getD j true = false ∧
        matchStep gts th found d = (found.set j true, true, false) := by
  rcases h : argmaxQ (gts.map (fun g => iou g d)) with _ | ⟨j, m⟩
  · exact Or.inl (by simp [matchStep, h])
  · by_cases h1 : m > th
    · by_cases h2 : found.getD j true = false
      · refine Or.inr ⟨j, h2, ?_⟩
        simp only [matchStep, h]
        rw [if_pos h1, if_pos h2]
      · refine Or.inl ?_
        simp only [matchStep, h]
        rw [if_pos h1, if_neg h2]
    · refine Or.inl ?_
      simp only [matchStep, h]
      rw [if_neg h1]

lemma matchStep_found_mono (gts : List Box) (th : ℚ) (found : List Bool)
    (d : Box) (j : ℕ) (h : found.getD j false = true) :
    ((matchStep gts th found d).1).getD j false = true := by
  rcases matchStep_cases gts th found d with hc | ⟨m, _, hc⟩
  · rw [hc]; exact h
  · rw [hc]; exact getD_set_mono found m j h

lemma runFound_mono (gts : List Box) (th : ℚ) (ds : List Box) :
    ∀ (f : List Bool) (j : ℕ), f.getD j false = true →
      (runFound gts th f ds).getD j false = true := by
  induction ds with
  | nil => intro f j h; simpa [runFound] using h
  | cons d ds ih =>
    intro f j h
    simpa [runFound] using ih _ j (matchStep_found_mono gts th f d j h)

lemma runFound_append (gts : List Box) (th : ℚ) (xs ys : List Box) :
    ∀ f, runFound gts th f (xs ++ ys) =
      runFound gts th (runFound gts th f xs) ys := by
  induction xs with
  | nil => intro f; simp [runFound]
  | cons x xs ih => intro f; simp [runFound, ih]

lemma foundAfter_mono (gts : List Box) (th : ℚ) (dets : List Box)
    (k k' j : ℕ) (hk : k ≤ k')
    (h : (foundAfter gts th dets k).getD j false = true) :
    (foundAfter gts th dets k').getD j false = true := by
  have hk2 : k + (k' - k) = k' := by omega
  rw [foundAfter, ← hk2, List.take_add, runFound_append]
  exact runFound_mono gts th _ _ j h

lemma count_set_true (l : List Bool) (m : ℕ) (h : l.getD m true = false) :
    (l.set m true).count true = l.count true + 1 := by
  induction l generalizing m with
  | nil => simp at h
  | cons b bs ih =>
    cases m with
    | zero =>
      have hb : b = false := by simpa using h
      subst hb
      simp [List.count_cons]
    | succ m =>
      have h2 := ih m (by simpa using h)
      cases b <;> simp [List.count_cons, h2]

lemma tp_and_fp_go_spec (gts : List Box) (th : ℚ) (ds : List Box) :
    ∀ f : List Bool,
      ((tp_and_fp_go gts th f ds).2.1).length = ds.length ∧
      ((tp_and_fp_go gts th f ds).2.2).length = ds.length ∧
      (tp_and_fp_go gts th f ds).2.1 =
        ((tp_and_fp_go gts th f ds).2.2).map (fun b => !b) ∧
      ((tp_and_fp_go gts th f ds).1).count true =
        f.count true + ((tp_and_fp_go gts th f ds).2.1).count true := by
  induction ds with
  | nil => intro f; simp [tp_and_fp_go]
  | cons d ds ih =>
    intro f
    rcases matchStep_cases gts th f d with hc | ⟨m, hm, hc⟩
    · have h := ih f
      simp only [tp_and_fp_go, hc]
      refine ⟨by simp [h.1], by simp [h.2.1], by simp [h.2.2.1], ?_⟩
      simp [List.count_cons, h.2.2.2]
    · have h := ih (f.set m true)
      simp only [tp_and_fp_go, hc]
      refine ⟨by simp [h.1], by simp [h.2.1], by simp [h.2.2.1], ?_⟩
      have hcount := count_set_true f m hm
      simp only [List.count_cons]
      simp [h.2.2.2, hcount]
      omega

/-- C1: in tp_and_fp_of_detection each ground-truth box is claimed by at
most one detection (a later detection cannot claim a ground truth already
claimed at an earlier index); a detection whose best-overlap ground truth is
already claimed and whose overlap exceeds the threshold is marked a false
positive with the claimed flags unchanged; and on one ground truth
[0,0,10,10] with two identical detections [0,0,10,10] at threshold 0.5, the
first detection is a true positive and the second a false positive. -/
theorem C1_each_gt_claimed_at_most_once (gts dets : List Box) (th : ℚ) :
    (∀ i1 i2 j, i1 < i2 → claimsGt gts th dets i1 j →
      ¬ claimsGt gts th dets i2 j) ∧
    (∀ (found : List Bool) (d : Box) (jm : ℕ) (om : ℚ),
      argmaxQ (gts.map (fun g => iou g d)) = some (jm, om) → om > th →
      found.getD jm true = true →
      matchStep gts th found d = (found, false, true)) ∧
    tp_and_fp_of_detection [⟨0,0,10,10⟩] [⟨0,0,10,10⟩, ⟨0,0,10,10⟩] (1/2) =
      ([true], [true, false], [false, true]) := by
  refine ⟨?_, ?_, ?_⟩
  · intro i1 i2 j h12 hc1 hc2
    have h2 : (foundAfter gts th dets i2).getD j false = true :=
      foundAfter_mono gts th dets (i1 + 1) i2 j (by omega) hc1.2
    have h3 := getD_true_of _ _ h2
    rw [hc2.1] at h3
    exact Bool.false_ne_true h3
  · intro found d jm om hmax hth hfound
    simp only [matchStep, hmax]
    rw [if_pos hth, if_neg (by rw [hfound]; simp)]
  · norm_num [tp_and_fp_of_detection, tp_and_fp_go, matchStep, argmaxQ, iou,
      interArea, areaP1, List.replicate]

/-- Witness for C1: the invariant applied at the concrete duplicate-detection
frame of the spec (the first detection claims the single ground truth, the
second cannot claim it again; processing a claimed best match yields FP). -/
theorem C1_each_gt_claimed_at_most_once_witness :
    claimsGt [⟨0,0,10,10⟩] (1/2) [⟨0,0,10,10⟩, ⟨0,0,10,10⟩] 0 0 ∧
    ¬ claimsGt [⟨0,0,10,10⟩] (1/2) [⟨0,0,10,10⟩, ⟨0,0,10,10⟩] 1 0 ∧
    matchStep [⟨0,0,10,10⟩] (1/2) [true] ⟨0,0,10,10⟩ = ([true], false, true) ∧
    tp_and_fp_of_detection [⟨0,0,10,10⟩] [⟨0,0,10,10⟩, ⟨0,0,10,10⟩] (1/2) =
      ([true], [true, false], [false, true]) := by
  have h0 : claimsGt [⟨0,0,10,10⟩] (1/2) [⟨0,0,10,10⟩, ⟨0,0,10,10⟩] 0 0 := by
    constructor <;>
      norm_num [foundAfter, runFound, matchStep, argmaxQ, iou, interArea,
        areaP1, List.replicate]
  refine ⟨h0, ?_, ?_, ?_⟩
  · exact (C1_each_gt_claimed_at_most_once
      [⟨0,0,10,10⟩] [⟨0,0,10,10⟩, ⟨0,0,10,10⟩] (1/2)).1 0 1 0 (by omega) h0
  · exact (C1_each_gt_claimed_at_most_once
      [⟨0,0,10,10⟩] [⟨0,0,10,10⟩, ⟨0,0,10,10⟩] (1/2)).2.1 [true] ⟨0,0,10,10⟩
      0 1 (by norm_num [argmaxQ, iou, interArea, areaP1]) (by norm_num) rfl
  · exact (C1_each_gt_claimed_at_most_once
      [⟨0,0,10,10⟩] [⟨0,0,10,10⟩, ⟨0,0,10,10⟩] (1/2)).2.2

/-- C7: with an empty ground-truth array every detection is marked a false
positive and none a true positive, and with an empty detection array the
TP and FP outputs are empty (found stays all-unclaimed); no error occurs. -/
theorem C7_empty_gt_all_fp (gts dets : List Box) (th : ℚ) :
    tp_and_fp_of_detection [] dets th =
      ([], List.replicate dets.length false, List.replicate dets.length true) ∧
    tp_and_fp_of_detection gts [] th =
      (List.replicate gts.length false, [], []) := by
  constructor
  · have key : ∀ ds : List Box, tp_and_fp_go [] th [] ds =
        ([], List.replicate ds.length false, List.replicate ds.length true) := by
      intro ds
      induction ds with
      | nil => simp [tp_and_fp_go]
      | cons d ds ih =>
        simp [tp_and_fp_go, matchStep, argmaxQ, ih, List.replicate_succ]
    simpa [tp_and_fp_of_detection] using key dets
  · simp [tp_and_fp_of_detection, tp_and_fp_go]

/-- C9: the TP and FP flag arrays have the same length as the detections,
are pointwise complementary (exactly one of tp and fp holds per detection),
and the number of claimed ground truths equals the number of true
positives. -/
theorem C9_tp_fp_exclusive_exhaustive (gts dets : List Box) (th : ℚ) :
    ((tp_and_fp_of_detection gts dets th).2.1).length = dets.length ∧
    ((tp_and_fp_of_detection gts dets th).2.2).length = dets.length ∧
    (tp_and_fp_of_detection gts dets th).2.1 =
      ((tp_and_fp_of_detection gts dets th).2.2).map (fun b => !b) ∧
    ((tp_and_fp_of_detection gts dets th).1).count true =
      ((tp_and_fp_of_detection gts dets th).2.1).count true := by
  have h := tp_and_fp_go_spec gts th dets (List.replicate gts.length false)
  refine ⟨h.1, h.2.1, h.2.2.1, ?_⟩
  have hz : (List.replicate gts.length false).count true = 0 := by
    simp [List.count_replicate]
  rw [tp_and_fp_of_detection] at *
  rw [h.2.2.2, hz]
  omega

/-- Box over the reals for the geometry codec (kalman.py lines 7-22), whose
decoding involves a square root. -/
structure RBox where
  x1 : ℝ
  y1 : ℝ
  x2 : ℝ
  y2 : ℝ

/-- Filter-measurement state (cx, cy, area, aspect = w/h) produced by
convert_box_to_state. -/
structure RState where
  cx : ℝ
  cy : ℝ
  area : ℝ
  aspect : ℝ

/-- Embedding of convert_box_to_state for a single box: torchvision
box_convert xyxy to cxcywh gives cx = (x1+x2)/2, cy = (y1+y2)/2, w = x2-x1,
h = y2-y1; the state stacks (cx, cy, box_area, w/h). -/
noncomputable def convert_box_to_state (b : RBox) : RState :=
  ⟨(b.x1 + b.x2) / 2, (b.y1 + b.y2) / 2,
    (b.x2 - b.x1) * (b.y2 - b.y1), (b.x2 - b.x1) / (b.y2 - b.y1)⟩

/-- Embedding of convert_state_to_box for a single state: w = sqrt(area
times aspect), h = area / w, box = (cx - w/2, cy - h/2, cx + w/2,
cy + h/2). -/
noncomputable def convert_state_to_box (s : RState) : RBox :=
  let w := Real.sqrt (s.area * s.aspect)
  let h := s.area / w
  ⟨s.cx - w / 2, s.cy - h / 2, s.cx + w / 2, s.cy + h / 2⟩

/-- C2: on boxes with positive width and height the state encoding followed
by the decoding is the identity (exactly, over the reals; hence in
particular within any floating-point tolerance). -/
theorem C2_state_box_roundtrip (b : RBox)
    (hw : 0 < b.x2 - b.x1) (hh : 0 < b.y2 - b.y1) :
    convert_state_to_box (convert_box_to_state b) = b := by
  obtain ⟨x1, y1, x2, y2⟩ := b
  simp only at hw hh
  have hw0 : x2 - x1 ≠ 0 := ne_of_gt hw
  have hh0 : y2 - y1 ≠ 0 := ne_of_gt hh
  have harea : ((x2 - x1) * (y2 - y1)) * ((x2 - x1) / (y2 - y1)) =
      (x2 - x1) ^ 2 := by
    field_simp
    ring
  have hsqrt : Real.sqrt (((x2 - x1) * (y2 - y1)) * ((x2 - x1) / (y2 - y1))) =
      x2 - x1 := by
    rw [harea, Real.sqrt_sq hw.le]
  simp only [convert_box_to_state, convert_state_to_box, hsqrt]
  congr 1
  · ring
  · field_simp
    ring
  · ring
  · field_simp
    ring

/-- Witness for C2 at the box (0, 0, 10, 4). -/
theorem C2_state_box_roundtrip_witness :
    (0:ℝ) < 10 - 0 ∧ (0:ℝ) < 4 - 0 ∧
    convert_state_to_box (convert_box_to_state ⟨0, 0, 10, 4⟩) =
      (⟨0, 0, 10, 4⟩ : RBox) :=
  ⟨by norm_num, by norm_num,
    C2_state_box_roundtrip ⟨0, 0, 10, 4⟩ (by norm_num) (by norm_num)⟩

/-- Trajectory position over the rationals (a row of a [L, 4] array). -/
abbrev Q4 := ℚ × ℚ × ℚ × ℚ

/-- Componentwise mean position of a trajectory, the value of
traj.mean(0). -/
def meanQ4 (traj : List Q4) : Q4 :=
  let s := traj.foldl (fun a b => a + b) ((0, 0, 0, 0) : Q4)
  (s.1 / traj.length, s.2.1 / traj.length,
    s.2.2.1 / traj.length, s.2.2.2 / traj.length)

/-- Embedding of the torch.Tensor branch of freeze_at_mean (kalman.py line
281): traj.mean(0).repeat(len(traj), 1) tiles the mean row len(traj)
times. -/
def freeze_at_mean_tensor (traj : List Q4) : List Q4 :=
  if 1 < traj.length then List.replicate traj.length (meanQ4 traj) else traj

/-- Embedding of the np.ndarray branch of freeze_at_mean (kalman.py line
283): np.tile(traj, (len(traj), 1)) vertically tiles the WHOLE trajectory
len(traj) times (the mean is never taken on this branch). -/
def freeze_at_mean_ndarray (traj : List Q4) : List Q4 :=
  if 1 < traj.length then (List.replicate traj.length traj).flatten else traj

/-- C3 divergence: on the spec trajectory [[0,0,1,1],[10,10,1,1]] the tensor
branch of freeze_at_mean returns the broadcast mean [[5,5,1,1],[5,5,1,1]],
but the ndarray branch returns the trajectory tiled twice (length 4), not
the broadcast mean, contradicting the spec for numpy inputs. -/
theorem C3_freeze_at_mean_ndarray_bug :
    freeze_at_mean_tensor [(0,0,1,1), (10,10,1,1)] = [(5,5,1,1), (5,5,1,1)] ∧
    freeze_at_mean_ndarray [(0,0,1,1), (10,10,1,1)] =
      [(0,0,1,1), (10,10,1,1), (0,0,1,1), (10,10,1,1)] ∧
    freeze_at_mean_ndarray [(0,0,1,1), (10,10,1,1)] ≠
      [(5,5,1,1), (5,5,1,1)] := by
  refine ⟨?_, ?_, ?_⟩
  · norm_num [freeze_at_mean_tensor, meanQ4, List.replicate]
  · norm_num [freeze_at_mean_ndarray, List.replicate]
  · intro h
    have hlen := congrArg List.length h
    norm_num [freeze_at_mean_ndarray, List.replicate] at hlen

/-- Measurement matrix H of SORTKalmanFilter (kalman.py lines 43-51). -/
def SORTKalmanFilter_H : List (List ℚ) :=
  [[1, 0, 0, 0, 0, 0, 0],
   [0, 1, 0, 0, 0, 0, 0],
   [0, 0, 1, 0, 0, 0, 0],
   [0, 0, 0, 1, 0, 0, 0]]

/-- Transition matrix A of SORTKalmanFilter (kalman.py lines 53-64). -/
def SORTKalmanFilter_A : List (List ℚ) :=
  [[1, 0, 0, 0, 1, 0, 0],
   [0, 1, 0, 0, 0, 1, 0],
   [0, 0, 1, 0, 0, 0, 1],
   [0, 0, 0, 1, 0, 0, 0],
   [0, 0, 0, 0, 1, 0, 0],
   [0, 0, 0, 0, 0, 1, 0],
   [0, 0, 0, 0, 0, 0, 1]]

/-- Process-noise covariance Q of SORTKalmanFilter (kalman.py lines 66-77);
the literal 0.01 ** 2 of the source is written as 0.01 ^ 2. -/
def SORTKalmanFilter_Q : List (List ℚ) :=
  [[1, 0, 0, 0, 0, 0, 0],
   [0, 1, 0, 0, 0, 0, 0],
   [0, 0, 1, 0, 0, 0, 0],
   [0, 0, 0, 1, 0, 0, 0],
   [0, 0, 0, 0, 0.01, 0, 0],
   [0, 0, 0, 0, 0, 0.01, 0],
   [0, 0, 0, 0, 0, 0, 0.01 ^ 2]]

/-- Initial error covariance P of SORTKalmanFilter (kalman.py lines
79-90). -/
def SORTKalmanFilter_P : List (List ℚ) :=
  [[1, 0, 0, 0, 1, 0, 0],
   [0, 1, 0, 0, 0, 1, 0],
   [0, 0, 1, 0, 0, 0, 1],
   [0, 0, 0, 1, 0, 0, 0],
   [0, 0, 0, 0, 1000, 0, 0],
   [0, 0, 0, 0, 0, 1000, 0],
   [0, 0, 0, 0, 0, 0, 1000]]

/-- Measurement-noise covariance R of SORTKalmanFilter (kalman.py lines
92-95). -/
def SORTKalmanFilter_R : List (List ℚ) :=
  [[1, 0, 0, 0],
   [0, 1, 0, 0],
   [0, 0, 10, 0],
   [0, 0, 0, 10]]

/-- Square diagonal matrix with the given diagonal, used to state the
claimed shape of the SORT covariance matrices. -/
def mkDiagQ (ds : List ℚ) : List (List ℚ) :=
  (List.range ds.length).map (fun i =>
    (List.range ds.length).map (fun j => if i = j then ds.getD i 0 else 0))

/-- Entry (i, j) of a matrix given as a list of rows. -/
def matEntry (m : List (List ℚ)) (i j : ℕ) : ℚ := (m.getD i []).getD j 0

/-- C4 counterexample: the process-noise entry of the first position
component is exactly 1, one hundred times the velocity noise 0.01, so the
position/shape process-noise entries are not near-zero as claimed. -/
theorem C4_position_noise_not_near_zero :
    matEntry SORTKalmanFilter_Q 0 0 = 1 ∧
    ¬ matEntry SORTKalmanFilter_Q 0 0 ≤ 0.01 ∧
    matEntry SORTKalmanFilter_Q 0 0 = 100 * matEntry SORTKalmanFilter_Q 4 4 := by
  refine ⟨rfl, ?_, ?_⟩
  · norm_num [matEntry, SORTKalmanFilter_Q]
  · norm_num [matEntry, SORTKalmanFilter_Q]

/-- C4 amended: Q is diagonal with UNIT (not near-zero) entries on the four
position/shape components and 0.01, 0.01, 1e-4 on the three velocity
components; P carries 1000 on each velocity diagonal entry; R is diagonal
with unit variance on the two center coordinates and tenfold variance on
area and aspect ratio. -/
theorem C4_sort_filter_matrices :
    SORTKalmanFilter_Q = mkDiagQ [1, 1, 1, 1, 0.01, 0.01, 0.0001] ∧
    matEntry SORTKalmanFilter_P 4 4 = 1000 ∧
    matEntry SORTKalmanFilter_P 5 5 = 1000 ∧
    matEntry SORTKalmanFilter_P 6 6 = 1000 ∧
    SORTKalmanFilter_R = mkDiagQ [1, 1, 10, 10] := by
  refine ⟨?_, rfl, rfl, rfl, ?_⟩
  · norm_num [SORTKalmanFilter_Q, mkDiagQ, List.range_succ]
  · norm_num [SORTKalmanFilter_R, mkDiagQ, List.range_succ]

/-- Trajectory row over the reals (a row of a [L, 4] array); obj_is_moving
only reads the first two coordinates (the center position). -/
abbrev R4 := ℝ × ℝ × ℝ × ℝ

/-- Straight-line pixel distance between the first and the last center
position, np.linalg.norm(trajectory[0, :2] - trajectory[-1, :2]). -/
noncomputable def pixel_distance (traj : List R4) : ℝ :=
  let s := traj.headI
  let e := traj.getLastD ((0, 0, 0, 0) : R4)
  Real.sqrt ((s.1 - e.1) ^ 2 + (s.2.1 - e.2.1) ^ 2)

/-- Embedding of obj_is_moving (kalman.py lines 259-275): with dt = 1/25,
a trajectory longer than time_treshold / dt frames is moving iff the
first-to-last pixel distance divided by len * dt strictly exceeds the
pixel-per-second threshold; shorter trajectories are always moving. -/
noncomputable def obj_is_moving (traj : List R4)
    (pixel_per_second_tresh : ℝ) (time_treshold : ℝ) : Prop :=
  let dt : ℝ := 1 / 25
  if (traj.length : ℝ) > time_treshold / dt then
    pixel_distance traj / (traj.length * dt) > pixel_per_second_tresh
  else
    True

/-- C5: at the default thresholds (5 px/s, 0.5 s) a trajectory of at most
12 frames is always classified moving; one of at least 13 frames is moving
exactly when the first-to-last pixel distance over len/25 seconds strictly
exceeds 5 px/s; and at least 13 frames with identical first and last center
points classify as not moving. -/
theorem C5_obj_is_moving_thresholds (traj : List R4) :
    (traj.length ≤ 12 → obj_is_moving traj 5 (1/2)) ∧
    (13 ≤ traj.length →
      (obj_is_moving traj 5 (1/2) ↔
        pixel_distance traj / (traj.length * (1/25)) > 5)) ∧
    (13 ≤ traj.length →
      traj.headI.1 = (traj.getLastD ((0, 0, 0, 0) : R4)).1 →
      traj.headI.2.1 = (traj.getLastD ((0, 0, 0, 0) : R4)).2.1 →
      ¬ obj_is_moving traj 5 (1/2)) := by
  refine ⟨?_, ?_, ?_⟩
  · intro h
    have hle : (traj.length : ℝ) ≤ 12 := by exact_mod_cast h
    have hc : ¬ ((traj.length : ℝ) > (1/2) / ((1:ℝ)/25)) := by
      norm_num
      linarith
    simp only [obj_is_moving]
    rw [if_neg hc]
    trivial
  · intro h
    have hge : (13 : ℝ) ≤ (traj.length : ℝ) := by exact_mod_cast h
    have hc : (traj.length : ℝ) > (1/2) / ((1:ℝ)/25) := by
      norm_num
      linarith
    simp only [obj_is_moving]
    rw [if_pos hc]
  · intro h hx hy
    have hge : (13 : ℝ) ≤ (traj.length : ℝ) := by exact_mod_cast h
    have hc : (traj.length : ℝ) > (1/2) / ((1:ℝ)/25) := by
      norm_num
      linarith
    have hd : pixel_distance traj = 0 := by
      simp only [pixel_distance]
      rw [hx, hy]
      simp
    simp only [obj_is_moving]
    rw [if_pos hc, hd]
    norm_num

/-- Witness for C5: a one-frame trajectory is moving; thirteen identical
frames at the origin are not moving. -/
theorem C5_obj_is_moving_thresholds_witness :
    ([((3:ℝ), 4, 1, 1)] : List R4).length ≤ 12 ∧
    obj_is_moving [((3:ℝ), 4, 1, 1)] 5 (1/2) ∧
    13 ≤ (List.replicate 13 ((0, 0, 0, 0) : R4)).length ∧
    ¬ obj_is_moving (List.replicate 13 ((0, 0, 0, 0) : R4)) 5 (1/2) := by
  refine ⟨by norm_num, ?_, by norm_num, ?_⟩
  · exact (C5_obj_is_moving_thresholds _).1 (by norm_num)
  · exact (C5_obj_is_moving_thresholds _).2.2 (by norm_num) rfl rfl

/-- Abstract model of the external cv2.KalmanFilter object used by
KalmanFilter.smooth: predict advances the hidden state and returns the
first four components of the predicted state (kalman.predict()[:4]);
correct incorporates a measurement.  The numerical content of OpenCV's
routines is outside this repository; claim C8 concerns only the order in
which smooth calls them, which holds for every such state machine. -/
structure CV2Kalman (S : Type) where
  predict : S → S × Q4
  correct : S → Q4 → S

/-- Loop body of KalmanFilter.smooth (kalman.py lines 243-249): for each
position, first record kalman.predict()[:4] + trajectory[0], then call
kalman.correct(position - trajectory[0]). -/
def smoothGo {S : Type} (F : CV2Kalman S) (first : Q4) :
    S → List Q4 → List Q4
  | _, [] => []
  | s, pos :: rest =>
    let p := F.predict s
    let s2 := F.correct p.1 (pos - first)
    (p.2 + first) :: smoothGo F first s2 rest

/-- Embedding of KalmanFilter.smooth (kalman.py lines 226-256); the
reference box trajectory[0] is the head of the trajectory. -/
def KalmanFilter_smooth {S : Type} (F : CV2Kalman S) (s0 : S)
    (traj : List Q4) : List Q4 :=
  smoothGo F traj.headI s0 traj

/-- Filter state after a predict-then-correct pass over the given
measurements (each taken relative to the reference box). -/
def stateAfter {S : Type} (F : CV2Kalman S) (first : Q4) (s0 : S)
    (ms : List Q4) : S :=
  ms.foldl (fun s m => F.correct (F.predict s).1 (m - first)) s0

lemma smoothGo_spec {S : Type} (F : CV2Kalman S) (first : Q4)
    (ms : List Q4) :
    ∀ s : S, (smoothGo F first s ms).length = ms.length ∧
      ∀ i, i < ms.length →
        (smoothGo F first s ms).get? i =
          some ((F.predict (stateAfter F first s (ms.take i))).2 + first) := by
  induction ms with
  | nil => intro s; simp [smoothGo]
  | cons m ms ih =>
    intro s
    constructor
    · simp [smoothGo, (ih (F.correct (F.predict s).1 (m - first))).1]
    · intro i hi
      cases i with
      | zero => simp [smoothGo, stateAfter]
      | succ i =>
        have h2 := (ih (F.correct (F.predict s).1 (m - first))).2 i
          (by simpa using hi)
        simp only [smoothGo, List.get?_cons_succ]
        rw [h2]
        simp [stateAfter, List.take_succ_cons]

/-- C8: smooth preserves the trajectory length, and its i-th output is the
one-step-ahead prediction of the filter state obtained from the first i
measurements only, offset by the first box: the prior prediction computed
before the i-th correction, not the corrected posterior (in particular it
does not depend on measurement i or any later one). -/
theorem C8_smooth_prior_predictions {S : Type} (F : CV2Kalman S) (s0 : S)
    (traj : List Q4) :
    (KalmanFilter_smooth F s0 traj).length = traj.length ∧
    ∀ i, i < traj.length →
      (KalmanFilter_smooth F s0 traj).get? i =
        some ((F.predict (stateAfter F traj.headI s0 (traj.take i))).2 +
          traj.headI) := by
  exact ⟨(smoothGo_spec F traj.headI traj s0).1,
    fun i hi => (smoothGo_spec F traj.headI traj s0).2 i hi⟩

/-- Concrete filter state machine used only to instantiate the witness of
C8. -/
def constKalman : CV2Kalman Unit :=
  ⟨fun _ => ((), ((0, 0, 0, 0) : Q4)), fun _ _ => ()⟩

/-- Witness for C8 on a one-element trajectory. -/
theorem C8_smooth_prior_predictions_witness :
    (KalmanFilter_smooth constKalman () [((1:ℚ), 2, 3, 4)]).length = 1 ∧
    (KalmanFilter_smooth constKalman () [((1:ℚ), 2, 3, 4)]).get? 0 =
      some ((constKalman.predict (stateAfter constKalman
          (([((1:ℚ), 2, 3, 4)] : List Q4).headI) ()
          (([((1:ℚ), 2, 3, 4)] : List Q4).take 0))).2 +
        ([((1:ℚ), 2, 3, 4)] : List Q4).headI) :=
  ⟨(C8_smooth_prior_predictions constKalman () [((1:ℚ), 2, 3, 4)]).1,
    (C8_smooth_prior_predictions constKalman () [((1:ℚ), 2, 3, 4)]).2 0
      (by norm_num)⟩

/-- Per-frame slot of the TP/FP accumulators of the metric aggregator:
none models the python-list sentinel of frames never written (skipped by
the type(im) != type([]) test of the code), some xs a numpy array of 0/1
flags (possibly empty). -/
abbrev FrameArr := Option (List ℚ)

/-- Flattened tp array of detection_metrics_from_tp_and_fp (lines 406-421):
the concatenation, in frame order, of the frames holding arrays. -/
def tpFlat (tp : List FrameArr) : List ℚ := (tp.filterMap id).flatten

/-- Flattened fp array: the fp frames at the positions where the tp frame
holds an array, concatenated in frame order (the code sizes both flat
arrays from tp and fills them from zip(tp, fp)). -/
def fpFlat (tp fp : List FrameArr) : List ℚ :=
  ((tp.zip fp).filterMap (fun p =>
    match p.1 with
    | some _ => p.2
    | none => none)).flatten

/-- Running cumulative sum with accumulator, np.cumsum. -/
def cumsumQ : ℚ → List ℚ → List ℚ
  | _, [] => []
  | acc, x :: xs => (acc + x) :: cumsumQ (acc + x) xs

/-- np.cumsum of a list. -/
def cumsum (xs : List ℚ) : List ℚ := cumsumQ 0 xs

/-- np.max of a nonempty list (with a default for the empty case, never
reached in the branch where the code uses it). -/
def listMaxD (xs : List ℚ) (d : ℚ) : ℚ :=
  match xs with
  | [] => d
  | x :: r => r.foldl max x

/-- Backward precision envelope (lines 447-448):
mpre[i-1] = max(mpre[i-1], mpre[i]) scanned from the right. -/
def precEnvelope : List ℚ → List ℚ
  | [] => []
  | x :: xs =>
    match precEnvelope xs with
    | [] => [x]
    | y :: ys => max x y :: y :: ys

/-- AP summation (lines 452-455): over adjacent positions where recall
changes value, add (recall delta) times the envelope precision at the upper
position. -/
def apSum : List ℚ → List ℚ → ℚ
  | r1 :: r2 :: rs, _ :: p2 :: ps =>
    (if r2 ≠ r1 then (r2 - r1) * p2 else 0) + apSum (r2 :: rs) (p2 :: ps)
  | _, _ => 0

/-- Evaluation dictionary returned by detection_metrics_from_tp_and_fp.
The nonempty branch of the code formats AP/Prec/Rec to two decimals and
TP/FP through int(); that string formatting is presentation and is omitted,
the exact values being kept. -/
structure EvalDict where
  AP : ℚ
  Prec : ℚ
  Rec : ℚ
  TP : ℚ
  FP : ℚ
deriving DecidableEq, Repr

/-- Embedding of detection_metrics_from_tp_and_fp (data_obj_detect.py lines
405-464).  With zero flattened detections the zero dictionary is returned
before any division; otherwise recall = cumsum tp / npos, precision =
cumsum tp / max(cumsum tp + cumsum fp, float64 eps), recall/precision are
padded with the sentinels (0,...,1) and (0,...,0), and AP integrates the
precision envelope over recall changes.  Reported Prec is the last
precision, Rec/TP/FP the maxima of the cumulative arrays. -/
def detection_metrics_from_tp_and_fp (tp fp : List FrameArr) (npos : ℕ) :
    EvalDict :=
  let tpc := cumsum (tpFlat tp)
  let fpc := cumsum (fpFlat tp fp)
  if tpc.length = 0 then
    ⟨0, 0, 0, 0, 0⟩
  else
    let recs := tpc.map (fun t => t / (npos : ℚ))
    let eps : ℚ := 1 / 2 ^ 52
    let precs := (tpc.zip fpc).map (fun p => p.1 / max (p.1 + p.2) eps)
    let mrec := 0 :: recs ++ [1]
    let mpre := 0 :: precs ++ [0]
    let menv := precEnvelope mpre
    ⟨apSum mrec menv, precs.getLastD 0, listMaxD recs 0,
      listMaxD tpc 0, listMaxD fpc 0⟩

/-- C6: when the flattened TP array is empty (zero detections over all
frames) the aggregator returns the all-zero dictionary, for every npos
including npos = 0, and no division is reached. -/
theorem C6_zero_detections_zero_metrics (tp fp : List FrameArr) (npos : ℕ)
    (h : tpFlat tp = []) :
    detection_metrics_from_tp_and_fp tp fp npos = ⟨0, 0, 0, 0, 0⟩ := by
  simp only [detection_metrics_from_tp_and_fp, h]
  simp [cumsum, cumsumQ]

/-- Witness for C6: two frames, one never written (list sentinel) and one
holding an empty array, with npos = 0. -/
theorem C6_zero_detections_zero_metrics_witness :
    tpFlat [none, some []] = [] ∧
    detection_metrics_from_tp_and_fp [none, some []] [none, some []] 0 =
      ⟨0, 0, 0, 0, 0⟩ :=
  ⟨rfl, C6_zero_detections_zero_metrics [none, some []] [none, some []] 0 rfl⟩

/-- Visibility mask of a frame, visible = visibilities > vis_threshold
(data_obj_detect.py lines 352 and 323). -/
def frameVisibleMask (vis : List ℚ) (vth : ℚ) : List Bool :=
  vis.map (fun v => decide (v > vth))

/-- Per-frame increment of npos in evaluate_detections (line 353) and
evaluate_detections_on_tracking_data (line 324): len(visible), the length
of the boolean mask. -/
def frameNposIncrement (vis : List ℚ) (vth : ℚ) : ℕ :=
  (frameVisibleMask vis vth).length

/-- Boolean-mask indexing boxes[visible] of a numpy array. -/
def maskSelect (xs : List Box) (mask : List Bool) : List Box :=
  (xs.zip mask).filterMap (fun p => if p.2 then some p.1 else none)

/-- Matching targets of a frame, im_gt = annotation boxes[visible]
(lines 354 and 325). -/
def frameMatchTargets (boxes : List Box) (vis : List ℚ) (vth : ℚ) :
    List Box :=
  maskSelect boxes (frameVisibleMask vis vth)

/-- Accumulated npos over the frames of a sequence/result set, as in
evaluate_detections and evaluate_detections_on_tracking_data. -/
def evaluate_detections_npos (frames : List (List Box × List ℚ))
    (vth : ℚ) : ℕ :=
  (frames.map (fun f => frameNposIncrement f.2 vth)).sum

lemma maskSelect_length (xs : List Box) :
    ∀ mask : List Bool, xs.length = mask.length →
      (maskSelect xs mask).length = mask.count true := by
  induction xs with
  | nil =>
    intro mask h
    cases mask with
    | nil => simp [maskSelect]
    | cons b m => simp at h
  | cons x xs ih =>
    intro mask h
    cases mask with
    | nil => simp at h
    | cons b m =>
      have h2 := ih m (by simpa using h)
      cases b <;> simp [maskSelect, List.count_cons] at h2 ⊢ <;> omega

lemma frameVisibleMask_count (vis : List ℚ) (vth : ℚ) :
    (frameVisibleMask vis vth).count true =
      vis.countP (fun v => decide (v > vth)) := by
  simp [frameVisibleMask, List.count_eq_countP, List.countP_map]
  rfl

/-- C10: the npos accumulated by evaluate_detections (and by
evaluate_detections_on_tracking_data, whose lines are identical) is the
total number of annotated boxes, the length of the visibility mask, while
the matching targets of each frame are only the boxes whose visibility
exceeds the threshold; a frame with one annotated box of visibility 0 at
threshold 1/4 contributes 1 to npos yet offers no matching target, so the
recall denominator counts ground truths that can never be matched. -/
theorem C10_npos_counts_all_annotated (frames : List (List Box × List ℚ))
    (vth : ℚ) :
    evaluate_detections_npos frames vth =
      (frames.map (fun f => f.2.length)).sum ∧
    (∀ f ∈ frames, f.1.length = f.2.length →
      (frameMatchTargets f.1 f.2 vth).length =
        f.2.countP (fun v => decide (v > vth))) ∧
    frameNposIncrement [0] (1/4) = 1 ∧
    frameMatchTargets [⟨0,0,10,10⟩] [0] (1/4) = [] := by
  refine ⟨?_, ?_, ?_, ?_⟩
  · simp [evaluate_detections_npos, frameNposIncrement, frameVisibleMask]
  · intro f _ hlen
    rw [frameMatchTargets, maskSelect_length f.1 _
      (by simpa [frameVisibleMask] using hlen), frameVisibleMask_count]
  · simp [frameNposIncrement, frameVisibleMask]
  · norm_num [frameMatchTargets, frameVisibleMask, maskSelect]

/-- Witness for C10: the single-frame sequence with one annotated box of
visibility 0 at threshold 1/4. -/
theorem C10_npos_counts_all_annotated_witness :
    evaluate_detections_npos [([⟨0,0,10,10⟩], [0])] (1/4) =
      ([(([⟨0,0,10,10⟩], [(0:ℚ)]) : List Box × List ℚ)].map
        (fun f => f.2.length)).sum ∧
    (frameMatchTargets [⟨0,0,10,10⟩] [0] (1/4)).length =
      ([(0:ℚ)]).countP (fun v => decide (v > (1/4 : ℚ))) ∧
    frameMatchTargets [⟨0,0,10,10⟩] [0] (1/4) = [] := by
  refine ⟨?_, ?_, ?_⟩
  · exact (C10_npos_counts_all_annotated [([⟨0,0,10,10⟩], [0])] (1/4)).1
  · exact (C10_npos_counts_all_annotated [([⟨0,0,10,10⟩], [0])] (1/4)).2.1
      ([⟨0,0,10,10⟩], [0]) (by simp) (by simp)
  · exact (C10_npos_counts_all_annotated [([⟨0,0,10,10⟩], [0])] (1/4)).2.2.2
